import Mathlib

/-!
Verification of the go-logger repository (package `log`): a structured-logging
facade over the zap backend.  The level model, the zap-adapter construction and
`Check` logic, and the context-resolution chain are embedded shallowly below;
the zap backend itself (an external collaborator) is modelled only to the depth
the facade observes: its level constants, its enabled-check semantics, and the
handle state the facade threads through its mutators.
-/

namespace GoLogger

/-! Level model (src/logger.go)

`LogLevel` is a Go `uint8`; the enumeration constants run from `PanicLevel = 0`
(`iota`) down in severity to `TraceLevel = 6`.  We model the carrier as `Nat`:
every comparison the source performs is against the constants `0..6`, so the
behaviour on the `uint8` range `0..255` is reproduced exactly. -/

abbrev LogLevel := Nat

/-- `PanicLevel` is the highest severity (`iota` start, value 0). -/
def PanicLevel : LogLevel := 0

/-- `FatalLevel` logs and then exits the application. -/
def FatalLevel : LogLevel := 1

/-- `ErrorLevel` is for errors that require attention. -/
def ErrorLevel : LogLevel := 2

/-- `WarnLevel` is for non-critical issues that need monitoring. -/
def WarnLevel : LogLevel := 3

/-- `InfoLevel` is for general operational information. -/
def InfoLevel : LogLevel := 4

/-- `DebugLevel` is for detailed debugging information. -/
def DebugLevel : LogLevel := 5

/-- `TraceLevel` is for the most granular level of information. -/
def TraceLevel : LogLevel := 6

/-- `strings.ToUpper` (external Go standard library), modelled as per-character
ASCII uppercasing.  Go applies full Unicode case mapping; the two agree on all
ASCII input, and every comparison target in `Text2Level` is ASCII.  (Go maps a
few exotic code points, e.g. dotless ı, onto ASCII letters; such inputs are
outside the spec's level-name alphabet and are not modelled.) -/
def goToUpper (s : String) : String :=
  String.mk (s.data.map Char.toUpper)

/-- `Text2Level` (src/logger.go): converts a string log level to a `LogLevel`.
The Go source declares `var logLevel LogLevel` (zero value `0 = PanicLevel`)
and switches on `strings.ToUpper(level)` with NO default case, so any
unrecognized text falls through and the zero value `PanicLevel` is returned. -/
def Text2Level (level : String) : LogLevel :=
  let u := goToUpper level
  if u = "TRACE" then TraceLevel
  else if u = "DEBUG" then DebugLevel
  else if u = "INFO" then InfoLevel
  else if u = "WARNING" then WarnLevel
  else if u = "ERROR" then ErrorLevel
  else if u = "FATAL" then FatalLevel
  else if u = "PANIC" then PanicLevel
  else if u = "UNKNOWN" then InfoLevel
  else PanicLevel

/-! zap backend level constants (external collaborator, go.uber.org/zap)

`zapcore.Level` is an `int8` with `Debug = -1, Info = 0, Warn = 1, Error = 2,
DPanic = 3, Panic = 4, Fatal = 5`; we model it as `Int`. -/

abbrev ZapcoreLevel := Int

def zapDebugLevel : ZapcoreLevel := -1
def zapInfoLevel : ZapcoreLevel := 0
def zapWarnLevel : ZapcoreLevel := 1
def zapErrorLevel : ZapcoreLevel := 2
def zapDPanicLevel : ZapcoreLevel := 3
def zapPanicLevel : ZapcoreLevel := 4
def zapFatalLevel : ZapcoreLevel := 5

/-- `convLevel` (src, zap adapter): converts a custom `LogLevel` to the
corresponding `zapcore.Level`.  The Go function returns `*zapcore.Level`,
`nil` for any level outside its six switch cases (the `default` branch);
`Option` models the nullable pointer. -/
def convLevel (level : LogLevel) : Option ZapcoreLevel :=
  if level = TraceLevel then some zapDebugLevel
  else if level = DebugLevel then some zapDebugLevel
  else if level = InfoLevel then some zapInfoLevel
  else if level = WarnLevel then some zapWarnLevel
  else if level = ErrorLevel then some zapErrorLevel
  else if level = FatalLevel then some zapFatalLevel
  else none

/-! zap adapter state (src, zap adapter)

Go values of type `interface{}` attached as structured fields are modelled by
`GoVal`; the facade never inspects them, it only threads them through to the
backend session. -/

inductive GoVal where
  | str : String → GoVal
  | err : String → GoVal
  | int : Int → GoVal
  | list : List GoVal → GoVal


/-- Level-encoder choice recorded in the zap `EncoderConfig` (the facade picks
between zap's `LowercaseLevelEncoder`, `CapitalColorLevelEncoder` and its own
`TraceLevelEncoder`). -/
inductive LevelEncoder where
  | lowercase
  | capitalColor
  | traceLevel


/-- The slice of the zap configuration the facade sets and later observes:
the atomic level threshold, the development flag, the encoding name, the
encoder keys/choices.  Modelled from the external zap backend's `zap.Config`. -/
structure ZapConfig where
  level : ZapcoreLevel
  development : Bool
  encoding : String
  messageKey : String
  levelKey : String
  timeKey : String
  callerKey : String
  encodeLevel : LevelEncoder


/-- The observable state of a `zap.SugaredLogger` session: its build
configuration, the structured fields attached so far (`With`), and the
accumulated caller-skip (`AddCallerSkip`).  Modelled from the external zap
backend. -/
structure SugaredLogger where
  config : ZapConfig
  fields : List GoVal
  callerSkip : Int


/-- `zap.SugaredLogger.With`: returns a new session with the arguments
appended as structured context.  Modelled from the external zap backend. -/
def SugaredLogger.withArgs (l : SugaredLogger) (args : List GoVal) : SugaredLogger :=
  { l with fields := l.fields ++ args }

/-- `zap.Logger.Check(lvl, msg) != nil` (external zap backend): the core
admits the entry when `lvl` is at or above the configured threshold; in
addition, Panic- and Fatal-level entries always get a checked entry (terminal
write-then-panic/exit behaviour is attached even when the core declines), as
does DPanic in development mode.  The message plays no role in the decision. -/
def SugaredLogger.checkNonNil (l : SugaredLogger) (lvl : ZapcoreLevel) : Bool :=
  (l.config.level ≤ lvl) || lvl = zapPanicLevel || lvl = zapFatalLevel
    || (l.config.development && lvl = zapDPanicLevel)

/-- `zapLogger` (src, zap adapter): wraps zap's `SugaredLogger` plus the
remembered trace-level flag. -/
structure ZapLogger where
  log : SugaredLogger
  traceLevel : Bool


/-- `newZap` (src, zap adapter): builds a `zapLogger` from the JSON flag and a
`LogLevel`.  Returns the `wrong logging level` error exactly when `convLevel`
yields `nil`; otherwise assembles the zap config — JSON mode uses lowercase
levels and the fixed `message`/`severity`/`timestamp`/`module` keys, console
mode switches to the colorized encoder, drops the time key and brackets the
caller; a `TraceLevel` request additionally installs `TraceLevelEncoder` —
and builds the logger.  zap's `config.Build` is external backend code and
succeeds for every configuration the facade constructs, so the model treats
the build step as total.  The handle remembers `TraceLevel == level`. -/
def newZap (json : Bool) (level : LogLevel) : Except String ZapLogger :=
  match convLevel level with
  | none => .error "wrong logging level"
  | some lvl =>
    let base : ZapConfig :=
      { level := lvl, development := true, encoding := "json",
        messageKey := "message", levelKey := "severity",
        timeKey := "timestamp", callerKey := "module",
        encodeLevel := .lowercase }
    let cfg :=
      if json then base
      else { base with encoding := "console", encodeLevel := .capitalColor, timeKey := "" }
    let cfg :=
      if level = TraceLevel then { cfg with encodeLevel := .traceLevel } else cfg
    .ok { log := { config := cfg, fields := [], callerSkip := 0 },
          traceLevel := level = TraceLevel }

/-- `zapLogger.Check` (src, zap adapter): for `TraceLevel` return the handle's
remembered flag; otherwise resolve via `convLevel`, report `false` on `nil`,
and else consult the backend's own check with an empty message key. -/
def ZapLogger.Check (l : ZapLogger) (level : LogLevel) : Bool :=
  if level = TraceLevel then l.traceLevel
  else
    match convLevel level with
    | none => false
    | some lvl => l.log.checkNonNil lvl

/-- `zapLogger.WithError` (src, zap adapter): attaches the error as the
`error` context field; the trace flag is threaded through. -/
def ZapLogger.WithError (l : ZapLogger) (err : String) : ZapLogger :=
  { log := l.log.withArgs [.str "error", .err err], traceLevel := l.traceLevel }

/-- `zapLogger.WithField` (src, zap adapter): attaches one key-value pair;
the trace flag is threaded through. -/
def ZapLogger.WithField (l : ZapLogger) (key : String) (value : GoVal) : ZapLogger :=
  { log := l.log.withArgs [.str key, value], traceLevel := l.traceLevel }

/-- `zapLogger.SkipCallers` (src, zap adapter): adds `count` to the session's
caller skip; the trace flag is threaded through. -/
def ZapLogger.SkipCallers (l : ZapLogger) (count : Int) : ZapLogger :=
  { log := { l.log with callerSkip := l.log.callerSkip + count }, traceLevel := l.traceLevel }

/-- `zapLogger.With` (src, zap adapter): bulk field attachment.  The Go body is
`&zapLogger{log: *l.log.With(f)}` — the variadic slice `f` is passed to the
sugared `With` as a single argument, and the struct literal omits `traceLevel`,
so the new handle gets the zero value `false` for the trace flag. -/
def ZapLogger.With (l : ZapLogger) (f : List GoVal) : ZapLogger :=
  { log := l.log.withArgs [.list f], traceLevel := false }

/-! Trace emulation and `Print` (src, zap adapter) -/

/-- The record the trace-emulation path submits to the backend core: its
synthetic level, its message, and the stack depth at which the caller is
captured (`runtime.Caller(callerSkipOffset)`). -/
structure Entry where
  level : ZapcoreLevel
  message : String
  callerSkip : Nat

/-- `const callerSkipOffset = 2` inside `trace` (src, zap adapter). -/
def traceCallerSkipOffset : Nat := 2

mutual

/-- A rendering of a `GoVal` as text, standing in for Go's default `%v`
formatting of an operand (external `fmt` package; the facade never depends on
the exact text). -/
def GoVal.render : GoVal → String
  | .str s => s
  | .err s => s
  | .int n => toString n
  | .list vs => "[" ++ GoVal.renderList vs ++ "]"

def GoVal.renderList : List GoVal → String
  | [] => ""
  | [v] => v.render
  | v :: rest => v.render ++ " " ++ GoVal.renderList rest

end

/-- `fmt.Sprint` (external Go standard library): concatenates the operands,
inserting a space between two adjacent operands only when neither of them is a
string. -/
def goSprint : List GoVal → String
  | [] => ""
  | [v] => v.render
  | a :: b :: rest =>
    let sep := match a, b with
      | .str _, _ => ""
      | _, .str _ => ""
      | _, _ => " "
    a.render ++ sep ++ goSprint (b :: rest)

/-- `trace` (src, zap adapter): synthesizes a trace record and submits it
directly to the backend core's write path.  In the Go source
`ce := &zapcore.CheckedEntry{}` is non-nil and `AddCore` on a non-nil checked
entry appends the core unconditionally, so the `if ce != nil` branch is always
taken and the record is always written: the function is total and always
produces the record below — level `zapcore.DebugLevel - 1`, the given message,
caller captured at `runtime.Caller(callerSkipOffset)`. -/
def trace (_l : ZapLogger) (msg : String) : Entry :=
  { level := zapDebugLevel - 1, message := msg,
    callerSkip := traceCallerSkipOffset }

/-- `zapLogger.Print` (src, zap adapter): `trace(l, fmt.Sprint(args...))`. -/
def ZapLogger.Print (l : ZapLogger) (args : List GoVal) : Entry :=
  trace l (goSprint args)

/-! Context propagation and process-wide defaults (src/logger.go) -/

/-- A value implementing the `Logger` interface: either the repository's own
zap adapter, or some other implementation (e.g. the test suite's
`MockLogger`), which the context-propagation code treats opaquely. -/
inductive LoggerVal where
  | zap (l : ZapLogger)
  | mock (id : Nat)

/-- An `interface{}` value stored in a context: either one satisfying the
`Logger` capability set (the type assertion `.(Logger)` succeeds) or any
other value (the assertion fails). -/
inductive GoAny where
  | logger (l : LoggerVal)
  | other (v : String)

/-- A Go `context.Context` as observed through `Value`: the chain of
`WithValue` wrappers, innermost first; `Value` returns the innermost match
(external Go standard library). -/
structure Context where
  entries : List (String × GoAny)

/-- `context.Background()`: carries no values. -/
def Context.background : Context := ⟨[]⟩

/-- `context.WithValue(ctx, k, v)`: wraps `ctx`, so lookups see `(k, v)`
first. -/
def Context.withValue (c : Context) (k : String) (v : GoAny) : Context :=
  ⟨(k, v) :: c.entries⟩

/-- `ctx.Value(k)`: innermost value stored under `k`, `nil` (`none`) when the
chain holds no such key. -/
def Context.value (c : Context) (k : String) : Option GoAny :=
  c.entries.lookup k

/-- `loggerKey` (src/logger.go): the single well-known context key. -/
def loggerKey : String := "logger"

/-- `Config` (src/logger.go): the logging configuration record. -/
structure Config where
  Level : String
  IsJson : Bool

/-- The package-level mutable state of src/logger.go: the global default
logger `def` (nullable), the global `defaultContext` (nullable), and the
global `LoggerConfig` record.  The Go functions read and write these package
variables; the embedding threads this record explicitly. -/
structure GlobalState where
  defLogger : Option LoggerVal
  defaultContext : Option Context
  LoggerConfig : Config

/-- `NewLogger` (src/logger.go): `newZap(conf.IsJson, Text2Level(conf.Level))`. -/
def NewLogger (conf : Config) : Except String ZapLogger :=
  newZap conf.IsJson (Text2Level conf.Level)

/-- `SetDefaultLogger` (src/logger.go): unconditionally replaces the global
default (a `nil` argument clears it). -/
def SetDefaultLogger (g : GlobalState) (l : Option LoggerVal) : GlobalState :=
  { g with defLogger := l }

/-- `SetDefaultContext` (src/logger.go): replaces the global default context. -/
def SetDefaultContext (g : GlobalState) (ctx : Option Context) : GlobalState :=
  { g with defaultContext := ctx }

/-- `GetDefaultLogger` (src/logger.go): return the explicitly set default if
non-nil; otherwise default `LoggerConfig.Level` to `"DEBUG"` when it is empty
(mutating the global config), build a fresh logger from the global config, and
panic on construction failure.  `Except.error` models the panic (process
abort); the returned state carries the mutated globals — note `def` is never
written here, so the lazily built logger is not cached. -/
def GetDefaultLogger (g : GlobalState) : Except String (LoggerVal × GlobalState) :=
  match g.defLogger with
  | some d => .ok (d, g)
  | none =>
    let cfg := if g.LoggerConfig.Level = "" then
        { g.LoggerConfig with Level := "DEBUG" } else g.LoggerConfig
    let g : GlobalState := { g with LoggerConfig := cfg }
    match newZap cfg.IsJson (Text2Level cfg.Level) with
    | .error e => .error e
    | .ok l => .ok (.zap l, g)

/-- `ToContext` (src/logger.go): attach a logger under `loggerKey`. -/
def ToContext (ctx : Context) (l : LoggerVal) : Context :=
  ctx.withValue loggerKey (.logger l)

/-- `FromDefaultContext` (src/logger.go): lazily initialize `defaultContext`
to `context.Background()` when nil; return the logger stored in it under
`loggerKey` if the type assertion succeeds, else `GetDefaultLogger()`. -/
def FromDefaultContext (g : GlobalState) : Except String (LoggerVal × GlobalState) :=
  let dctx := g.defaultContext.getD Context.background
  let g : GlobalState := { g with defaultContext := some dctx }
  match dctx.value loggerKey with
  | some (.logger l) => .ok (l, g)
  | _ => GetDefaultLogger g

/-- `FromContext` (src/logger.go): if the context holds no value under
`loggerKey`, fall through to `FromDefaultContext`; if it holds a value
satisfying the `Logger` capability set, return it; otherwise return `nil`
(`none`) — terminal, no fallback. -/
def FromContext (g : GlobalState) (ctx : Context) :
    Except String (Option LoggerVal × GlobalState) :=
  match ctx.value loggerKey with
  | none => (FromDefaultContext g).map (fun p => (some p.1, p.2))
  | some (.logger l) => .ok (some l, g)
  | some (.other _) => .ok (none, g)

/-! Sample values used to instantiate the theorems below -/

/-- The handle `newZap true TraceLevel` constructs. -/
def sampleTraceLogger : ZapLogger :=
  { log := { config := { level := -1, development := true, encoding := "json",
                         messageKey := "message", levelKey := "severity",
                         timeKey := "timestamp", callerKey := "module",
                         encodeLevel := .traceLevel },
             fields := [], callerSkip := 0 },
    traceLevel := true }

/-- The handle `newZap true InfoLevel` constructs. -/
def sampleInfoLogger : ZapLogger :=
  { log := { config := { level := 0, development := true, encoding := "json",
                         messageKey := "message", levelKey := "severity",
                         timeKey := "timestamp", callerKey := "module",
                         encodeLevel := .lowercase },
             fields := [], callerSkip := 0 },
    traceLevel := false }

/-- A global state with an explicitly set default logger. -/
def sampleState : GlobalState :=
  { defLogger := some (.mock 0), defaultContext := none,
    LoggerConfig := { Level := "", IsJson := true } }

/-- A global state with no default logger and a level text resolving to
`PanicLevel`. -/
def samplePanicState : GlobalState :=
  { defLogger := none, defaultContext := none,
    LoggerConfig := { Level := "PANIC", IsJson := true } }

/-- A global state with no default logger and an unset level. -/
def sampleEmptyState : GlobalState :=
  { defLogger := none, defaultContext := none,
    LoggerConfig := { Level := "", IsJson := true } }

/-- A context whose logger key holds a value that fails the `Logger`
capability set. -/
def sampleBadCtx : Context :=
  Context.background.withValue loggerKey (.other "not a logger")

/-! Theorems -/

/-- Characterizes `convLevel`'s `nil` results: exactly `PanicLevel` and every
value above `TraceLevel`. -/
theorem convLevel_eq_none_iff (level : Nat) :
    convLevel level = none ↔ (level = PanicLevel ∨ TraceLevel < level) :=
  match level with
  | 0 | 1 | 2 | 3 | 4 | 5 | 6 => by decide
  | (n + 7) => by
    have h1 : ¬(n + 7 = 6) := by omega
    have h2 : ¬(n + 7 = 5) := by omega
    have h3 : ¬(n + 7 = 4) := by omega
    have h4 : ¬(n + 7 = 3) := by omega
    have h5 : ¬(n + 7 = 2) := by omega
    have h6 : ¬(n + 7 = 1) := by omega
    have hnone : convLevel (n + 7) = none := by
      unfold convLevel TraceLevel DebugLevel InfoLevel WarnLevel ErrorLevel FatalLevel
      rw [if_neg h1, if_neg h2, if_neg h3, if_neg h4, if_neg h5, if_neg h6]
    rw [hnone]
    constructor
    · intro _; exact Or.inr (by show 6 < n + 7; omega)
    · intro _; rfl

/-- C1 counterexample: the claim says every unrecognized input string
(including the empty string) maps to `Info`; on the code, `Text2Level ""`
falls through the switch (which has no default case) and returns the zero
value `PanicLevel`, which is not `InfoLevel`. -/
theorem text2Level_empty_counterexample :
    Text2Level "" = PanicLevel ∧ PanicLevel ≠ InfoLevel := by
  constructor <;> decide

/-- C1 (amended): `Text2Level` is a total function; every recognized level
text (case-insensitive) maps to the documented enumeration value, with
`WARNING` mapping to `Warn` and `UNKNOWN` mapping to `Info`; any unrecognized
input (including the empty string) returns the enumeration's zero value
`PanicLevel` — not `Info` — and no error is signaled. -/
theorem text2Level_amended :
    (∀ s, goToUpper s = "TRACE" → Text2Level s = TraceLevel) ∧
    (∀ s, goToUpper s = "DEBUG" → Text2Level s = DebugLevel) ∧
    (∀ s, goToUpper s = "INFO" → Text2Level s = InfoLevel) ∧
    (∀ s, goToUpper s = "WARNING" → Text2Level s = WarnLevel) ∧
    (∀ s, goToUpper s = "ERROR" → Text2Level s = ErrorLevel) ∧
    (∀ s, goToUpper s = "FATAL" → Text2Level s = FatalLevel) ∧
    (∀ s, goToUpper s = "PANIC" → Text2Level s = PanicLevel) ∧
    (∀ s, goToUpper s = "UNKNOWN" → Text2Level s = InfoLevel) ∧
    (∀ s, goToUpper s ∉ (["TRACE", "DEBUG", "INFO", "WARNING", "ERROR",
        "FATAL", "PANIC", "UNKNOWN"] : List String) →
      Text2Level s = PanicLevel) := by
  refine ⟨?_, ?_, ?_, ?_, ?_, ?_, ?_, ?_, ?_⟩
  case _ => intro s h; simp [Text2Level, h]
  case _ => intro s h; simp [Text2Level, h]
  case _ => intro s h; simp [Text2Level, h]
  case _ => intro s h; simp [Text2Level, h]
  case _ => intro s h; simp [Text2Level, h]
  case _ => intro s h; simp [Text2Level, h]
  case _ => intro s h; simp [Text2Level, h]
  case _ => intro s h; simp [Text2Level, h]
  case _ =>
    intro s h
    simp only [List.mem_cons, List.not_mem_nil, or_false, not_or] at h
    obtain ⟨h1, h2, h3, h4, h5, h6, h7, h8⟩ := h
    simp [Text2Level, h1, h2, h3, h4, h5, h6, h7, h8]

/-- Witness for C1 (amended): a recognized lowercase text and an unrecognized
text, evaluated concretely. -/
theorem text2Level_amended_witness :
    Text2Level "warning" = WarnLevel ∧ Text2Level "bogus" = PanicLevel :=
  ⟨text2Level_amended.2.2.2.1 "warning" (by decide),
   text2Level_amended.2.2.2.2.2.2.2.2 "bogus" (by decide)⟩

/-- C2: `convLevel` is total and returns `nil` exactly for `PanicLevel` and
any value outside the seven defined levels; `TraceLevel` and `DebugLevel`
both map to zap's Debug, and Info/Warn/Error/Fatal map to the same-named zap
levels. -/
theorem convLevel_total_mapping :
    convLevel TraceLevel = some zapDebugLevel ∧
    convLevel DebugLevel = some zapDebugLevel ∧
    convLevel InfoLevel = some zapInfoLevel ∧
    convLevel WarnLevel = some zapWarnLevel ∧
    convLevel ErrorLevel = some zapErrorLevel ∧
    convLevel FatalLevel = some zapFatalLevel ∧
    ∀ level : LogLevel,
      convLevel level = none ↔ (level = PanicLevel ∨ TraceLevel < level) :=
  ⟨rfl, rfl, rfl, rfl, rfl, rfl, convLevel_eq_none_iff⟩

/-- Witness for C2: the invalid results evaluated at `PanicLevel` and at the
out-of-enumeration value `100`. -/
theorem convLevel_total_mapping_witness :
    convLevel PanicLevel = none ∧ convLevel 100 = none :=
  ⟨(convLevel_total_mapping.2.2.2.2.2.2 PanicLevel).mpr (Or.inl rfl),
   (convLevel_total_mapping.2.2.2.2.2.2 100).mpr (Or.inr (by decide))⟩

/-- C3: `newZap` fails with the invalid-level error exactly when the
requested severity has no backend mapping (`PanicLevel` or any
out-of-enumeration value); for every level with a valid mapping it succeeds
with a (non-nil) handle. -/
theorem newZap_error_iff (json : Bool) (level : LogLevel) :
    (newZap json level = .error "wrong logging level" ↔
      (level = PanicLevel ∨ TraceLevel < level)) ∧
    ((∃ l, newZap json level = .ok l) ↔
      ¬(level = PanicLevel ∨ TraceLevel < level)) := by
  have hiff := convLevel_eq_none_iff level
  cases h : convLevel level with
  | none =>
    have hl0 : newZap json level = .error "wrong logging level" := by
      unfold newZap; rw [h]
    rw [hl0]
    constructor
    · exact ⟨fun _ => hiff.mp h, fun _ => rfl⟩
    · constructor
      · rintro ⟨l, hl⟩; cases hl
      · intro hb; exact absurd (hiff.mp h) hb
  | some lvl =>
    have hb : ¬(level = PanicLevel ∨ TraceLevel < level) := by
      intro hb; rw [hiff.mpr hb] at h; cases h
    have hl0 : ∃ l, newZap json level = .ok l := by
      unfold newZap; rw [h]; exact ⟨_, rfl⟩
    obtain ⟨l0, hl0⟩ := hl0
    rw [hl0]
    constructor
    · constructor
      · intro he; cases he
      · intro hx; exact absurd hx hb
    · exact ⟨fun _ => hb, fun _ => ⟨l0, rfl⟩⟩

/-- Witness for C3: construction fails at `PanicLevel` and succeeds at
`InfoLevel`. -/
theorem newZap_error_iff_witness :
    newZap true PanicLevel = .error "wrong logging level" ∧
    (∃ l, newZap true InfoLevel = .ok l) :=
  ⟨(newZap_error_iff true PanicLevel).1.mpr (Or.inl rfl),
   (newZap_error_iff true InfoLevel).2.mpr (by decide)⟩

/-- C4: for every handle, `Check TraceLevel` is exactly the handle's
remembered boolean flag (independent of the backend threshold stored in the
session); for a handle constructed by `newZap`, that flag is true if and only
if the requested severity was exactly `TraceLevel`. -/
theorem check_trace_flag :
    (∀ l : ZapLogger, l.Check TraceLevel = l.traceLevel) ∧
    (∀ (json : Bool) (level : LogLevel) (l : ZapLogger),
        newZap json level = .ok l →
        (l.Check TraceLevel = true ↔ level = TraceLevel)) := by
  constructor
  · intro l; simp [ZapLogger.Check]
  · intro json level l h
    cases hc : convLevel level with
    | none => unfold newZap at h; rw [hc] at h; cases h
    | some lvl =>
      unfold newZap at h
      rw [hc] at h
      simp only [Except.ok.injEq] at h
      have ht : l.traceLevel = decide (level = TraceLevel) := by rw [← h]
      simp [ZapLogger.Check, ht]

/-- Witness for C4: the handle built at `TraceLevel` reports `Check Trace`
true; the handle built at `InfoLevel` reports it false even though its
backend threshold admits nothing below Info. -/
theorem check_trace_flag_witness :
    newZap true TraceLevel = Except.ok sampleTraceLogger ∧
    sampleTraceLogger.Check TraceLevel = true ∧
    newZap true InfoLevel = Except.ok sampleInfoLogger ∧
    sampleInfoLogger.Check TraceLevel = false :=
  ⟨rfl,
   (check_trace_flag.2 true TraceLevel sampleTraceLogger rfl).mpr rfl,
   rfl,
   by
    have h := (check_trace_flag.2 true InfoLevel sampleInfoLogger rfl)
    simp only [sampleTraceLogger, sampleInfoLogger] at *
    revert h
    decide⟩

/-- C5: if a context holds a non-`Logger` value under the logger key,
`FromContext` returns `nil` (no logger) without consulting the default chain
and without touching the global state; if the context holds nothing under the
key, `FromContext` returns exactly the result of the default-context chain. -/
theorem fromContext_strict :
    (∀ (g : GlobalState) (ctx : Context) (v : String),
        ctx.value loggerKey = some (.other v) →
        FromContext g ctx = .ok (none, g)) ∧
    (∀ (g : GlobalState) (ctx : Context), ctx.value loggerKey = none →
        FromContext g ctx =
          (FromDefaultContext g).map (fun p => (some p.1, p.2))) := by
  constructor
  · intro g ctx v h; unfold FromContext; rw [h]
  · intro g ctx h; unfold FromContext; rw [h]

/-- Witness for C5: a context carrying a non-logger string under the key is a
terminal "no logger"; the empty background context falls through to the
default chain. -/
theorem fromContext_strict_witness :
    FromContext sampleState sampleBadCtx = .ok (none, sampleState) ∧
    FromContext sampleState Context.background =
      (FromDefaultContext sampleState).map (fun p => (some p.1, p.2)) :=
  ⟨fromContext_strict.1 sampleState sampleBadCtx "not a logger" rfl,
   fromContext_strict.2 sampleState Context.background rfl⟩

/-- C7: `WithField`, `WithError` and `SkipCallers` each return a new handle
preserving the receiver's trace-enabled flag, while the bulk `With` drops it
(the Go struct literal omits the field, so it is zero-initialized to false);
consequently, for a handle constructed at `TraceLevel`, `Check TraceLevel` is
false on the result of `With` but true on the result of `WithField`. -/
theorem mutators_trace_flag :
    (∀ (l : ZapLogger) (k : String) (v : GoVal),
        (l.WithField k v).traceLevel = l.traceLevel) ∧
    (∀ (l : ZapLogger) (e : String),
        (l.WithError e).traceLevel = l.traceLevel) ∧
    (∀ (l : ZapLogger) (n : Int),
        (l.SkipCallers n).traceLevel = l.traceLevel) ∧
    (∀ (l : ZapLogger) (fs : List GoVal),
        (l.With fs).traceLevel = false) ∧
    (∀ (json : Bool) (l : ZapLogger), newZap json TraceLevel = .ok l →
        ∀ (fs : List GoVal) (k : String) (v : GoVal),
          (l.With fs).Check TraceLevel = false ∧
          (l.WithField k v).Check TraceLevel = true) := by
  refine ⟨fun _ _ _ => rfl, fun _ _ => rfl, fun _ _ => rfl, fun _ _ => rfl, ?_⟩
  intro json l h fs k v
  have hc : convLevel TraceLevel = some zapDebugLevel := rfl
  unfold newZap at h
  rw [hc] at h
  simp only [Except.ok.injEq] at h
  have ht : l.traceLevel = true := by rw [← h]; rfl
  constructor
  · simp [ZapLogger.With, ZapLogger.Check]
  · simp [ZapLogger.WithField, ZapLogger.Check, ht]

/-- Witness for C7: evaluated on the handle `newZap true TraceLevel`
constructs. -/
theorem mutators_trace_flag_witness :
    (sampleTraceLogger.With []).Check TraceLevel = false ∧
    (sampleTraceLogger.WithField "k" (.str "v")).Check TraceLevel = true :=
  mutators_trace_flag.2.2.2.2 true sampleTraceLogger rfl [] "k" (.str "v")

/-- C8: for every handle and every non-Trace level, `Check` is false when the
level has no backend mapping — in particular `Check PanicLevel` is always
false — and otherwise equals the backend's own enabled determination for the
mapped backend level (queried with an empty message key, which plays no role
in the decision). -/
theorem check_nontrace_backend :
    (∀ l : ZapLogger, l.Check PanicLevel = false) ∧
    (∀ (l : ZapLogger) (level : LogLevel), level ≠ TraceLevel →
        l.Check level =
          match convLevel level with
          | none => false
          | some lvl => l.log.checkNonNil lvl) := by
  constructor
  · intro l; rfl
  · intro l level h
    unfold ZapLogger.Check
    rw [if_neg h]

/-- Witness for C8: evaluated at `InfoLevel` (valid mapping, matching the
backend check) and `PanicLevel` (no mapping, disabled) on a concrete handle. -/
theorem check_nontrace_backend_witness :
    sampleInfoLogger.Check PanicLevel = false ∧
    sampleInfoLogger.Check DebugLevel =
      (match convLevel DebugLevel with
       | none => false
       | some lvl => sampleInfoLogger.log.checkNonNil lvl) :=
  ⟨check_nontrace_backend.1 sampleInfoLogger,
   check_nontrace_backend.2 sampleInfoLogger DebugLevel (by decide)⟩

/-- C9: round-trip — attaching any logger value to any context and retrieving
from that same context returns exactly that value, untouched global state,
for every context and every global state. -/
theorem toContext_fromContext_roundtrip
    (g : GlobalState) (ctx : Context) (l : LoggerVal) :
    FromContext g (ToContext ctx l) = .ok (some l, g) := rfl

/-- C6: `GetDefaultLogger` returns the explicitly set (non-nil) default
verbatim; otherwise it first defaults the global level to `"DEBUG"` when that
level is the empty string, then builds and returns a fresh logger from the
global configuration — the returned state's default-logger slot is still
unset, so nothing is cached — and a construction failure in this lazy path
aborts the process (modelled as the `Except` error). -/
theorem getDefaultLogger_resolution :
    (∀ (g : GlobalState) (d : LoggerVal), g.defLogger = some d →
        GetDefaultLogger g = .ok (d, g)) ∧
    (∀ g : GlobalState, g.defLogger = none → g.LoggerConfig.Level = "" →
        ∃ l, newZap g.LoggerConfig.IsJson (Text2Level "DEBUG") = .ok l ∧
          GetDefaultLogger g =
            .ok (.zap l,
              { g with LoggerConfig := { g.LoggerConfig with Level := "DEBUG" } }) ∧
          ({ g with LoggerConfig := { g.LoggerConfig with Level := "DEBUG" } }
              : GlobalState).defLogger = none) ∧
    (∀ g : GlobalState, g.defLogger = none → g.LoggerConfig.Level ≠ "" →
        GetDefaultLogger g =
          match newZap g.LoggerConfig.IsJson (Text2Level g.LoggerConfig.Level) with
          | .error e => .error e
          | .ok l => .ok (.zap l, g)) ∧
    (∀ g : GlobalState, g.defLogger = none → g.LoggerConfig.Level ≠ "" →
        convLevel (Text2Level g.LoggerConfig.Level) = none →
        GetDefaultLogger g = .error "wrong logging level") := by
  have hdbg : Text2Level "DEBUG" = DebugLevel := by decide
  refine ⟨?_, ?_, ?_, ?_⟩
  · intro g d h
    unfold GetDefaultLogger
    rw [h]
  · intro g h1 h2
    have hget : GetDefaultLogger g =
        match newZap g.LoggerConfig.IsJson (Text2Level "DEBUG") with
        | .error e => .error e
        | .ok l => .ok (.zap l,
            { g with LoggerConfig := { g.LoggerConfig with Level := "DEBUG" } }) := by
      unfold GetDefaultLogger
      rw [h1, if_pos h2]
    rw [hdbg] at hget ⊢
    cases hj : g.LoggerConfig.IsJson <;> rw [hj] at hget <;>
      exact ⟨_, rfl, by rw [hget]; rfl, h1⟩
  · intro g h1 h2
    obtain ⟨d, dc, cfg⟩ := g
    simp only at h1 h2
    subst h1
    unfold GetDefaultLogger
    rw [if_neg h2]
  · intro g h1 h2 h3
    obtain ⟨d, dc, cfg⟩ := g
    simp only at h1 h2 h3
    subst h1
    have hz : newZap cfg.IsJson (Text2Level cfg.Level) =
        .error "wrong logging level" := by
      unfold newZap; rw [h3]
    unfold GetDefaultLogger
    rw [if_neg h2]
    simp only [hz]

/-- Witness for C6: the explicitly set default is returned verbatim; with no
default and an empty level the fresh `DEBUG` logger is built and not cached;
with no default and level text `"PANIC"` the call aborts. -/
theorem getDefaultLogger_resolution_witness :
    GetDefaultLogger sampleState = .ok (.mock 0, sampleState) ∧
    (∃ l, newZap sampleEmptyState.LoggerConfig.IsJson (Text2Level "DEBUG") = .ok l ∧
      GetDefaultLogger sampleEmptyState =
        .ok (.zap l,
          { sampleEmptyState with LoggerConfig :=
              { sampleEmptyState.LoggerConfig with Level := "DEBUG" } }) ∧
      ({ sampleEmptyState with LoggerConfig :=
          { sampleEmptyState.LoggerConfig with Level := "DEBUG" } }
          : GlobalState).defLogger = none) ∧
    GetDefaultLogger samplePanicState = .error "wrong logging level" :=
  ⟨getDefaultLogger_resolution.1 sampleState (.mock 0) rfl,
   getDefaultLogger_resolution.2.1 sampleEmptyState rfl rfl,
   getDefaultLogger_resolution.2.2.2 samplePanicState rfl (by decide) (by decide)⟩

/-- C10: `Print` never writes at an ordinary severity: for every argument
list it formats the arguments with `fmt.Sprint` and emits the record through
the synthetic trace-emulation path, whose level is one below zap's Debug
level (distinct from every ordinary backend level) and whose caller is
captured at the fixed trace-path stack depth. -/
theorem print_trace_emulation (l : ZapLogger) (args : List GoVal) :
    l.Print args = trace l (goSprint args) ∧
    (l.Print args).level = zapDebugLevel - 1 ∧
    (l.Print args).level ∉
      ([zapDebugLevel, zapInfoLevel, zapWarnLevel, zapErrorLevel,
        zapFatalLevel] : List ZapcoreLevel) ∧
    (l.Print args).message = goSprint args ∧
    (l.Print args).callerSkip = traceCallerSkipOffset := by
  refine ⟨rfl, rfl, ?_, rfl, rfl⟩
  show (zapDebugLevel - 1 : ZapcoreLevel) ∉ _
  decide

end GoLogger
